import Mathlib

/-!
Verification development for the Chronos classroom-observation applet.

Part 1 embeds `GeminiService` (src/src/services/gemini.service.ts):
credential resolution (`loadApiKey` / `getApiKey`) and the retry loop
`fetchWithRetry` with exponential backoff.

Part 2 embeds the session state machine of `AppComponent`
(src/src/app.component.ts): session start/stop, concurrent mode timers,
action counters, engagement tracking with the idle reminder poll, and the
capped session log.
-/

deriving instance DecidableEq for Except

namespace Chronos

/-! ### Gemini response envelope (§ gemini.service.ts lines 112-119)

The success body is navigated as
candidates[0]?.content?.parts[0]?.text . -/

/-- One element of the `parts` array of a candidate's content. -/
structure CandPart where
  text : Option String
deriving DecidableEq, Repr

/-- The `content` object of a candidate. -/
structure CandContent where
  parts : List CandPart
deriving DecidableEq, Repr

/-- One element of the `candidates` array. -/
structure Candidate where
  content : Option CandContent
deriving DecidableEq, Repr

/-- A parsed success-response body: the `candidates` array. -/
structure GenBody where
  candidates : List Candidate
deriving DecidableEq, Repr

/-- `data.candidates?.[0]?.content?.parts?.[0]?.text` (line 114):
optional chaining through the nested envelope. -/
def extractText (b : GenBody) : Option String :=
  ((((b.candidates.get? 0).bind Candidate.content).map CandContent.parts).bind
    (fun ps => ps.get? 0)).bind CandPart.text

/-- What one `fetch` of the endpoint produces, as seen by the retry loop:
either the transport throws (network failure), or an HTTP response arrives
carrying its status, its status text, the optional `error.message` field of
a structured error payload, and the (possibly empty) success envelope. -/
inductive FetchResult where
  /-- `fetch` itself threw: a network-level failure. -/
  | netError (msg : String)
  /-- An HTTP response; `ok` is derived from the status (200-299). -/
  | response (status : Nat) (statusText : String)
      (errMsg : Option String) (body : GenBody)
deriving DecidableEq, Repr

/-- The body of one iteration of the `while` loop of `fetchWithRetry`
(lines 95-119), up to the `catch`: `.ok text` when the iteration hits
`return text`, `.error msg` when it throws (all thrown errors are caught by
the `catch` at line 121, whatever their origin).

Mirrors: `!response.ok` then the 5xx-with-attempts-left test
(`response.status >= 500 && attempt < maxRetries - 1`), else the structured
message `errorData.error?.message || response.statusText`; on an ok
response, the nested-text extraction with its parse-failure error. -/
def attemptResult (r : FetchResult) (attempt maxRetries : Nat) :
    Except String String :=
  match r with
  | .netError m => .error m
  | .response status statusText errMsg body =>
    if ¬ (200 ≤ status ∧ status ≤ 299) then
      if 500 ≤ status ∧ attempt < maxRetries - 1 then
        .error ("Server error: " ++ toString status)
      else
        .error ("API Error: " ++ errMsg.getD statusText)
    else
      match extractText body with
      | some t => .ok t
      | none => .error "未能從 AI 回應中解析文本。"

/-- Final outcome of a `fetchWithRetry` call. `undefinedReturn` is the
implicit `return undefined` reached only when the `while` guard fails
before any attempt (impossible for `maxRetries ≥ 1`). -/
inductive RunOutcome where
  | success (text : String)
  | failure (msg : String)
  | undefinedReturn
deriving DecidableEq, Repr

/-- Observable trace of one `fetchWithRetry` call: how many network calls
were made, the key passed to each of them, the backoff delays slept (ms, in
order), and the final outcome. -/
structure FetchTrace where
  attempts : Nat
  keys : List String
  delays : List Nat
  outcome : RunOutcome
deriving DecidableEq, Repr

/-- The `while (attempt < maxRetries)` loop of `fetchWithRetry`
(lines 93-130).  `net key attempt` is the mocked network: what the
`fetch` at lines 96-102 produces on the given attempt when called with the
given key.  On a caught error the counter is incremented; at the bound the
error is rethrown, otherwise the loop sleeps `2 ^ attempt * 1000` ms
(line 127, with the already-incremented counter) and retries. -/
def fetchGo (net : String → Nat → FetchResult) (apiKey : String)
    (maxRetries : Nat) (attempt : Nat) : FetchTrace :=
  if _h : attempt < maxRetries then
    match attemptResult (net apiKey attempt) attempt maxRetries with
    | .ok t => ⟨1, [apiKey], [], .success t⟩
    | .error e =>
      if attempt + 1 ≥ maxRetries then ⟨1, [apiKey], [], .failure e⟩
      else
        let rest := fetchGo net apiKey maxRetries (attempt + 1)
        ⟨1 + rest.attempts, apiKey :: rest.keys,
          (2 ^ (attempt + 1) * 1000) :: rest.delays, rest.outcome⟩
  else ⟨0, [], [], .undefinedReturn⟩
termination_by maxRetries - attempt
decreasing_by omega

/-- `fetchWithRetry` (lines 91-131): resolve the credential once via
`this.getApiKey()` (line 92) before the loop; a resolution failure
propagates straight to the caller with zero network attempts.  `cred` is
the outcome of that resolution. -/
def fetchWithRetry (cred : Except String String)
    (net : String → Nat → FetchResult) (maxRetries : Nat := 3) : FetchTrace :=
  match cred with
  | .error e => ⟨0, [], [], .failure e⟩
  | .ok k => fetchGo net k maxRetries 0

/-! ### Credential resolution (lines 33-89) -/

/-- `loadApiKey` (lines 33-48): the stored record is usable while
`Date.now() - timestamp < 2h`; otherwise it is discarded. `stored` is the
parsed localStorage record (value, timestamp), `now` the current time in
ms. -/
def loadApiKey (stored : Option (String × Nat)) (now : Nat) : Option String :=
  match stored with
  | some (value, timestamp) =>
    if now - timestamp < 2 * 60 * 60 * 1000 then some value else none
  | none => none

/-- `getApiKey` (lines 77-89): re-load from storage; if the result is
absent (JS-falsy: `null` or the empty string), fall back to the ambient
`process.env.API_KEY` access — `env = some k` when that access yields `k`,
`none` when it throws (the browser case), in which case the distinct
missing-credential error is raised. -/
def getApiKey (stored : Option (String × Nat)) (env : Option String)
    (now : Nat) : Except String String :=
  match loadApiKey stored now with
  | some k =>
    if k = "" then
      match env with
      | some e => .ok e
      | none => .error "API 金鑰未設定或已過期。"
    else .ok k
  | none =>
    match env with
    | some e => .ok e
    | none => .error "API 金鑰未設定或已過期。"

/-- `polishText` (lines 133-149): builds a fixed polish prompt from the
note and calls `fetchWithRetry` with the default bound 3.  The prompt and
generation parameters do not influence the retry trace, so the mocked
network `net` is taken as already applied to the request body. -/
def polishText (cred : Except String String)
    (net : String → Nat → FetchResult) : FetchTrace :=
  fetchWithRetry cred net 3

/-- `generateReport` (lines 151-192): serializes the session log into a
report prompt and calls `fetchWithRetry` with the default bound 3; as with
`polishText`, the body is absorbed into `net`. -/
def generateReport (cred : Except String String)
    (net : String → Nat → FetchResult) : FetchTrace :=
  fetchWithRetry cred net 3

/-! ### Shape lemmas for the three-attempt loop -/

/-- Attempt 0 succeeds: one call, no delay. -/
theorem fetchGo3_ok0 (net : String → Nat → FetchResult) (k : String)
    (t : String) (h0 : attemptResult (net k 0) 0 3 = .ok t) :
    fetchGo net k 3 0 = ⟨1, [k], [], .success t⟩ := by
  rw [fetchGo]
  simp [h0]

/-- Attempt 0 fails, attempt 1 succeeds: two calls, one 2 s delay. -/
theorem fetchGo3_err0_ok1 (net : String → Nat → FetchResult) (k : String)
    (e0 t : String) (h0 : attemptResult (net k 0) 0 3 = .error e0)
    (h1 : attemptResult (net k 1) 1 3 = .ok t) :
    fetchGo net k 3 0 = ⟨2, [k, k], [2000], .success t⟩ := by
  rw [fetchGo]
  simp [h0]
  rw [fetchGo]
  simp [h1]

/-- Attempts 0 and 1 fail, attempt 2 succeeds: three calls, delays 2 s and
4 s. -/
theorem fetchGo3_err01_ok2 (net : String → Nat → FetchResult) (k : String)
    (e0 e1 t : String) (h0 : attemptResult (net k 0) 0 3 = .error e0)
    (h1 : attemptResult (net k 1) 1 3 = .error e1)
    (h2 : attemptResult (net k 2) 2 3 = .ok t) :
    fetchGo net k 3 0 = ⟨3, [k, k, k], [2000, 4000], .success t⟩ := by
  rw [fetchGo]
  simp [h0]
  rw [fetchGo]
  simp [h1]
  rw [fetchGo]
  simp [h2]

/-- All three attempts fail: three calls, delays 2 s and 4 s, and the third
attempt's error is the final failure. -/
theorem fetchGo3_err012 (net : String → Nat → FetchResult) (k : String)
    (e0 e1 e2 : String) (h0 : attemptResult (net k 0) 0 3 = .error e0)
    (h1 : attemptResult (net k 1) 1 3 = .error e1)
    (h2 : attemptResult (net k 2) 2 3 = .error e2) :
    fetchGo net k 3 0 = ⟨3, [k, k, k], [2000, 4000], .failure e2⟩ := by
  rw [fetchGo]
  simp [h0]
  rw [fetchGo]
  simp [h1]
  rw [fetchGo]
  simp [h2]

/-! ### Mock networks used in concrete runs -/

/-- A mocked endpoint answering 500 on the first two attempts and a valid
success envelope on the third. -/
def net500TwiceThenOk : String → Nat → FetchResult := fun _ attempt =>
  if attempt < 2 then .response 500 "Internal Server Error" none ⟨[]⟩
  else .response 200 "OK" none ⟨[⟨some ⟨[⟨some "generated"⟩]⟩⟩]⟩

/-- A mocked endpoint answering 400 with a structured error payload on
every attempt. -/
def net400 : String → Nat → FetchResult := fun _ _ =>
  .response 400 "Bad Request" (some "Invalid request") ⟨[]⟩

/-! ### Claim theorems for the retry client -/

/-- The delays list predicted by the exponential-backoff formula at each of
the possible attempt counts of a three-attempt run. -/
theorem delays_formula_table :
    (([] : List Nat) = (List.range (0 - 1)).map (fun j => 2 ^ (j + 1) * 1000)) ∧
    (([] : List Nat) = (List.range (1 - 1)).map (fun j => 2 ^ (j + 1) * 1000)) ∧
    ([2000] = (List.range (2 - 1)).map (fun j => 2 ^ (j + 1) * 1000)) ∧
    ([2000, 4000] = (List.range (3 - 1)).map (fun j => 2 ^ (j + 1) * 1000)) := by
  decide

/-- C1: every `fetchWithRetry` call with the bound 3 used by `polishText`
and `generateReport` makes at most 3 network attempts; the backoff delays
are exactly 2^k * 1000 ms after the k-th failed attempt (2 s then 4 s);
when all three attempts fail the third attempt's error is the final
failure; and the mocked 500/500/200 endpoint succeeds after exactly 3
attempts with delays 2 s and 4 s. -/
theorem retry_backoff_contract :
    (∀ (cred : Except String String) (net : String → Nat → FetchResult),
      (fetchWithRetry cred net 3).attempts ≤ 3) ∧
    (∀ (cred : Except String String) (net : String → Nat → FetchResult),
      (fetchWithRetry cred net 3).delays
        = (List.range ((fetchWithRetry cred net 3).attempts - 1)).map
            (fun j => 2 ^ (j + 1) * 1000)) ∧
    (∀ (k : String) (net : String → Nat → FetchResult) (e0 e1 e2 : String),
      attemptResult (net k 0) 0 3 = .error e0 →
      attemptResult (net k 1) 1 3 = .error e1 →
      attemptResult (net k 2) 2 3 = .error e2 →
      fetchWithRetry (.ok k) net 3
        = ⟨3, [k, k, k], [2000, 4000], .failure e2⟩) ∧
    fetchWithRetry (.ok "key") net500TwiceThenOk 3
      = ⟨3, ["key", "key", "key"], [2000, 4000], .success "generated"⟩ := by
  have shapes : ∀ (k : String) (net : String → Nat → FetchResult),
      (fetchGo net k 3 0).attempts ≤ 3 ∧
      (fetchGo net k 3 0).delays
        = (List.range ((fetchGo net k 3 0).attempts - 1)).map
            (fun j => 2 ^ (j + 1) * 1000) := by
    intro k net
    cases h0 : attemptResult (net k 0) 0 3 with
    | ok t =>
      rw [fetchGo3_ok0 net k t h0]
      exact ⟨(by decide : (1 : Nat) ≤ 3), delays_formula_table.2.1⟩
    | error e0 =>
      cases h1 : attemptResult (net k 1) 1 3 with
      | ok t =>
        rw [fetchGo3_err0_ok1 net k e0 t h0 h1]
        exact ⟨(by decide : (2 : Nat) ≤ 3), delays_formula_table.2.2.1⟩
      | error e1 =>
        cases h2 : attemptResult (net k 2) 2 3 with
        | ok t =>
          rw [fetchGo3_err01_ok2 net k e0 e1 t h0 h1 h2]
          exact ⟨(by decide : (3 : Nat) ≤ 3), delays_formula_table.2.2.2⟩
        | error e2 =>
          rw [fetchGo3_err012 net k e0 e1 e2 h0 h1 h2]
          exact ⟨(by decide : (3 : Nat) ≤ 3), delays_formula_table.2.2.2⟩
  refine ⟨?_, ?_, ?_, ?_⟩
  · intro cred net
    cases cred with
    | error e => exact (by decide : (0 : Nat) ≤ 3)
    | ok k => exact (shapes k net).1
  · intro cred net
    cases cred with
    | error e => exact delays_formula_table.1
    | ok k => exact (shapes k net).2
  · intro k net e0 e1 e2 h0 h1 h2
    show fetchGo net k 3 0 = _
    exact fetchGo3_err012 net k e0 e1 e2 h0 h1 h2
  · show fetchGo net500TwiceThenOk "key" 3 0 = _
    exact fetchGo3_err01_ok2 net500TwiceThenOk "key"
      "Server error: 500" "Server error: 500" "generated"
      (by decide) (by decide) (by decide)

/-- C1 witness: the all-attempts-fail part of the contract at the concrete
400-answering endpoint propagates the third attempt's error. -/
theorem retry_backoff_contract_witness :
    attemptResult (net400 "key" 0) 0 3 = .error "API Error: Invalid request" ∧
    fetchWithRetry (.ok "key") net400 3
      = ⟨3, ["key", "key", "key"], [2000, 4000],
          .failure "API Error: Invalid request"⟩ :=
  ⟨by decide,
    retry_backoff_contract.2.2.1 "key" net400
      "API Error: Invalid request" "API Error: Invalid request"
      "API Error: Invalid request" (by decide) (by decide) (by decide)⟩

/-- C2: the code evaluated at the failing input.  A mocked endpoint
answering 400 with a structured message on every attempt should, per the
non-retryable error classification the source sets up at line 105 (and the
spec's NonRetryableApiError taxonomy), fail immediately after one attempt
with no backoff.  Instead the run makes 3 network attempts, sleeps the 2 s
and 4 s backoffs, and only then propagates the extracted message: the
`API Error` throw at gemini.service.ts:109 sits inside the `try` whose
`catch` (line 121) retries every caught error, defeating the fail-fast
branch. -/
theorem non_5xx_is_retried_counterexample :
    (fetchWithRetry (.ok "key") net400 3).attempts = 3 ∧
    (fetchWithRetry (.ok "key") net400 3).delays = [2000, 4000] ∧
    (fetchWithRetry (.ok "key") net400 3).outcome
      = .failure "API Error: Invalid request" := by
  have h : fetchWithRetry (.ok "key") net400 3
      = ⟨3, ["key", "key", "key"], [2000, 4000],
          .failure "API Error: Invalid request"⟩ :=
    fetchGo3_err012 net400 "key"
      "API Error: Invalid request" "API Error: Invalid request"
      "API Error: Invalid request" (by decide) (by decide) (by decide)
  rw [h]
  exact ⟨rfl, rfl, rfl⟩

/-- The actual behaviour of the loop on non-5xx errors, in general: the
message is extracted from the structured payload (or the transport status
text if absent) as intended, but — because the throw happens inside the
`try` whose `catch` drives the retry loop — the error is retried like any
other failure: it consumes one attempt and is followed by the usual
backoff while attempts remain, and only after the bound is exhausted does
the extracted-message error propagate. -/
theorem non_5xx_error_extracted_but_retried (k statusText : String)
    (errMsg : Option String) (status : Nat) (body : GenBody)
    (hnok : ¬ (200 ≤ status ∧ status ≤ 299)) (hlt : status < 500) :
    (∀ attempt maxRetries,
      attemptResult (.response status statusText errMsg body) attempt maxRetries
        = .error ("API Error: " ++ errMsg.getD statusText)) ∧
    fetchWithRetry (.ok k) (fun _ _ => .response status statusText errMsg body) 3
      = ⟨3, [k, k, k], [2000, 4000],
          .failure ("API Error: " ++ errMsg.getD statusText)⟩ := by
  have hres : ∀ attempt maxRetries,
      attemptResult (.response status statusText errMsg body) attempt maxRetries
        = .error ("API Error: " ++ errMsg.getD statusText) := by
    intro attempt maxRetries
    rw [attemptResult, if_pos hnok, if_neg (by omega)]
  refine ⟨hres, ?_⟩
  show fetchGo _ k 3 0 = _
  exact fetchGo3_err012 _ k _ _ _ (hres 0 3) (hres 1 3) (hres 2 3)

/-- Concrete instance of the general non-5xx behaviour at a 404 without a
structured payload: the statusText is extracted and the run still makes
all 3 attempts with both backoffs. -/
theorem non_5xx_error_extracted_but_retried_witness :
    (¬ (200 ≤ 404 ∧ 404 ≤ 299)) ∧ 404 < 500 ∧
    fetchWithRetry (.ok "key")
        (fun _ _ => .response 404 "Not Found" none ⟨[]⟩) 3
      = ⟨3, ["key", "key", "key"], [2000, 4000],
          .failure "API Error: Not Found"⟩ :=
  ⟨by decide, by decide,
    (non_5xx_error_extracted_but_retried "key" "Not Found" none 404 ⟨[]⟩
      (by decide) (by decide)).2⟩

/-- C8: the credential is resolved once, before the loop; when storage
yields nothing usable (absent, expired, or JS-falsy empty) and the ambient
environment access throws, resolution yields the distinct
missing-credential error; a resolution failure makes the call fail with
that error with zero network attempts and no delays; and on successful
resolution the very same key is the one passed to every network attempt of
the call. -/
theorem credential_resolution_contract :
    (∀ (stored : Option (String × Nat)) (now : Nat),
      loadApiKey stored now = none ∨ loadApiKey stored now = some "" →
      getApiKey stored none now = .error "API 金鑰未設定或已過期。") ∧
    (∀ (e : String) (net : String → Nat → FetchResult) (m : Nat),
      fetchWithRetry (.error e) net m = ⟨0, [], [], .failure e⟩) ∧
    (∀ (k : String) (net : String → Nat → FetchResult),
      (fetchWithRetry (.ok k) net 3).keys
        = List.replicate (fetchWithRetry (.ok k) net 3).attempts k) := by
  refine ⟨?_, ?_, ?_⟩
  · intro stored now h
    cases h with
    | inl h => rw [getApiKey, h]
    | inr h => rw [getApiKey, h]; simp
  · intro e net m
    rfl
  · intro k net
    show (fetchGo net k 3 0).keys
      = List.replicate (fetchGo net k 3 0).attempts k
    cases h0 : attemptResult (net k 0) 0 3 with
    | ok t => rw [fetchGo3_ok0 net k t h0]; rfl
    | error e0 =>
      cases h1 : attemptResult (net k 1) 1 3 with
      | ok t => rw [fetchGo3_err0_ok1 net k e0 t h0 h1]; rfl
      | error e1 =>
        cases h2 : attemptResult (net k 2) 2 3 with
        | ok t => rw [fetchGo3_err01_ok2 net k e0 e1 t h0 h1 h2]; rfl
        | error e2 => rw [fetchGo3_err012 net k e0 e1 e2 h0 h1 h2]; rfl

/-- C8 witness: with empty storage and a throwing environment access, the
call fails with the missing-credential message and makes zero attempts. -/
theorem credential_resolution_contract_witness :
    getApiKey none none 0 = .error "API 金鑰未設定或已過期。" ∧
    fetchWithRetry (getApiKey none none 0) net400 3
      = ⟨0, [], [], .failure "API 金鑰未設定或已過期。"⟩ := by
  have ha := credential_resolution_contract.1 none 0 (Or.inl rfl)
  exact ⟨ha, by rw [ha]; exact credential_resolution_contract.2.1 _ _ _⟩

/-- C9: an ok response whose body lacks the nested text field (such as the
empty candidates array) is an error at the attempt level exactly like a
5xx: the run with such responses on every attempt makes the same number of
attempts with the same delays as the all-500 run, and after exhausting the
bound the parse-failure error propagates. -/
theorem missing_text_field_retried_like_5xx (k statusText : String) :
    (∀ attempt : Nat,
      attemptResult (.response 200 statusText none ⟨[]⟩) attempt 3
        = .error "未能從 AI 回應中解析文本。") ∧
    (fetchWithRetry (.ok k)
        (fun _ _ => .response 200 statusText none ⟨[]⟩) 3).attempts
      = (fetchWithRetry (.ok k)
          (fun _ _ => .response 500 statusText none ⟨[]⟩) 3).attempts ∧
    (fetchWithRetry (.ok k)
        (fun _ _ => .response 200 statusText none ⟨[]⟩) 3).delays
      = (fetchWithRetry (.ok k)
          (fun _ _ => .response 500 statusText none ⟨[]⟩) 3).delays ∧
    fetchWithRetry (.ok k) (fun _ _ => .response 200 statusText none ⟨[]⟩) 3
      = ⟨3, [k, k, k], [2000, 4000],
          .failure "未能從 AI 回應中解析文本。"⟩ := by
  have hparse : ∀ attempt : Nat,
      attemptResult (.response 200 statusText none ⟨[]⟩) attempt 3
        = .error "未能從 AI 回應中解析文本。" := by
    intro attempt
    rw [attemptResult, if_neg (by omega)]
    rfl
  have h500a : ∀ attempt : Nat, attempt < 2 →
      attemptResult (.response 500 statusText none ⟨[]⟩) attempt 3
        = .error "Server error: 500" := by
    intro attempt h
    rw [attemptResult, if_pos (by omega), if_pos (by omega)]
    rfl
  have h500b : attemptResult (.response 500 statusText none ⟨[]⟩) 2 3
      = .error ("API Error: " ++ statusText) := by
    rw [attemptResult, if_pos (by omega), if_neg (by omega)]
    rfl
  have hp : fetchWithRetry (.ok k)
      (fun _ _ => .response 200 statusText none ⟨[]⟩) 3
      = ⟨3, [k, k, k], [2000, 4000],
          .failure "未能從 AI 回應中解析文本。"⟩ :=
    fetchGo3_err012 _ k _ _ _ (hparse 0) (hparse 1) (hparse 2)
  have h5 : fetchWithRetry (.ok k)
      (fun _ _ => .response 500 statusText none ⟨[]⟩) 3
      = ⟨3, [k, k, k], [2000, 4000],
          .failure ("API Error: " ++ statusText)⟩ :=
    fetchGo3_err012 _ k _ _ _ (h500a 0 (by omega)) (h500a 1 (by omega)) h500b
  rw [hp, h5]
  exact ⟨hparse, rfl, rfl, rfl⟩

/-! ## Part 2: the session state machine of `AppComponent`
(src/src/app.component.ts)

Signals become plain fields; `Date.now()` becomes an explicit `now : Nat`
(milliseconds) passed to each operation; the two recurring intervals that
exist only while the session is active (mode accumulation, lines 127-138,
and the reminder poll, lines 141-160) become operations whose body is
guarded by `sessionActive`, mirroring that the interval is torn down when
the session stops.  View-glue fields (modal visibility, AI-loading flags,
`aiReportContent`, `tempApiKey`) are not part of the modeled state; none of
the modeled operations reads them. -/

/-- `TeachingMode` (lines 9-15): a named concurrent timer. -/
structure TeachingMode where
  id : String
  name : String
  icon : String
  active : Bool
  elapsedTime : Nat
deriving DecidableEq, Repr

/-- `TeachingAction` (lines 17-22): a named counter. -/
structure TeachingAction where
  id : String
  name : String
  icon : String
  count : Nat
deriving DecidableEq, Repr

/-- The `type` discriminator of a `LogEntry` (line 27). -/
inductive LogType where
  | mode | action | note | engagement | session
deriving DecidableEq, Repr

/-- `LogEntry` (lines 24-28). -/
structure LogEntry where
  timestamp : Nat
  message : String
  type : LogType
deriving DecidableEq, Repr

/-- The engagement level enum `'high' | 'medium' | 'low'` (line 86). -/
inductive EngLevel where
  | high | medium | low
deriving DecidableEq, Repr

/-- The modeled component state: the signals of `AppComponent`
(lines 43-89) that the session operations read or write. -/
structure AppState where
  sessionActive : Bool
  currentTime : Nat
  sessionStartTime : Option Nat
  selectedSubject : String
  teachingModes : List TeachingMode
  teachingActions : List TeachingAction
  logs : List LogEntry
  qualitativeNote : String
  engagementLevel : EngLevel
  engagementValue : Nat
  lastEngagementLogTime : Option Nat
  needsEngagementReminder : Bool
deriving DecidableEq, Repr

/-- The initial signal values (lines 43-89): inactive, four inactive
zeroed mode timers, five zeroed action counters, empty log, default
engagement 50 / medium. -/
def initState : AppState where
  sessionActive := false
  currentTime := 0
  sessionStartTime := none
  selectedSubject := "國文"
  teachingModes :=
    [⟨"lecture", "講述教學", "presentation", false, 0⟩,
     ⟨"group-discussion", "小組討論", "users", false, 0⟩,
     ⟨"practice", "實作/演算", "edit-3", false, 0⟩,
     ⟨"digital-tool", "數位運用", "cpu", false, 0⟩]
  teachingActions :=
    [⟨"praise", "正向鼓勵", "thumbs-up", 0⟩,
     ⟨"correction", "糾正規範", "alert-triangle", 0⟩,
     ⟨"open-question", "開放提問", "message-circle", 0⟩,
     ⟨"closed-question", "封閉提問", "help-circle", 0⟩,
     ⟨"patrol", "巡視走動", "walk", 0⟩]
  logs := []
  qualitativeNote := ""
  engagementLevel := .medium
  engagementValue := 50
  lastEngagementLogTime := none
  needsEngagementReminder := false

/-- `addLog` (lines 171-173): prepend the entry and keep the most recent
100. -/
def addLog (s : AppState) (message : String) (t : LogType) (now : Nat) :
    AppState :=
  { s with logs := (⟨now, message, t⟩ :: s.logs).take 100 }

/-- `toggleSession` (lines 175-199).  Stopping clears only the active flag
and logs the end marker (the summary-modal write is view glue).  Starting
resets logs, mode timers, action counters, note, engagement value, last
engagement time, and reminder flag, then activates the session, stamps the
start time and logs the start marker.  The code does not touch
`engagementLevel` on either path. -/
def toggleSession (s : AppState) (now : Nat) : AppState :=
  if s.sessionActive then
    addLog { s with sessionActive := false } "觀課結束" .session now
  else
    let s1 : AppState :=
      { s with
        logs := [],
        teachingModes := s.teachingModes.map
          (fun m => { m with active := false, elapsedTime := 0 }),
        teachingActions := s.teachingActions.map
          (fun a => { a with count := 0 }),
        qualitativeNote := "",
        engagementValue := 50,
        lastEngagementLogTime := none,
        needsEngagementReminder := false,
        sessionActive := true,
        sessionStartTime := some now }
    addLog s1 ("觀課開始 - 科目: " ++ s.selectedSubject) .session now

/-- The callback of the mode-accumulation interval (lines 129-135): every
active timer gains one second.  The interval only exists while
`sessionActive` is true (the effect at line 127 registers it on activation
and its cleanup clears it), hence the guard. -/
def modeTick (s : AppState) : AppState :=
  if s.sessionActive then
    { s with teachingModes :=
        s.teachingModes.map (fun m =>
          if m.active then { m with elapsedTime := m.elapsedTime + 1 }
          else m) }
  else s

/-- `toggleTeachingMode` (lines 201-205), with the mode addressed by its
index in the `teachingModes` list: silently ignored while inactive;
otherwise flips the flag and logs the new state. -/
def toggleTeachingMode (s : AppState) (i : Nat) (now : Nat) : AppState :=
  if s.sessionActive = false then s
  else
    match s.teachingModes.get? i with
    | none => s
    | some m =>
      let m2 : TeachingMode := { m with active := !m.active }
      let s1 : AppState := { s with teachingModes := s.teachingModes.set i m2 }
      addLog s1 (m2.name ++ " " ++ (if m2.active then "啟用" else "停用"))
        .mode now

/-- `recordAction` (lines 207-211), with the action addressed by its index:
silently ignored while inactive; otherwise increments and logs. -/
def recordAction (s : AppState) (i : Nat) (now : Nat) : AppState :=
  if s.sessionActive = false then s
  else
    match s.teachingActions.get? i with
    | none => s
    | some a =>
      let s1 : AppState :=
        { s with teachingActions :=
            s.teachingActions.set i { a with count := a.count + 1 } }
      addLog s1 ("紀錄: " ++ a.name) .action now

/-- The level thresholds of `onEngagementChange` (lines 218-221):
`> 66` high, `> 33` medium, else low. -/
def computeLevel (value : Nat) : EngLevel :=
  if value > 66 then .high else if value > 33 then .medium else .low

/-- The localized level name used in the log line (line 224). -/
def levelName : EngLevel → String
  | .high => "高"
  | .medium => "中"
  | .low => "低"

/-- `onEngagementChange` (lines 213-227): silently ignored while inactive;
otherwise stores the value, recomputes the level, logs it, stamps
`lastEngagementLogTime` and clears the reminder flag. -/
def onEngagementChange (s : AppState) (value : Nat) (now : Nat) : AppState :=
  if s.sessionActive = false then s
  else
    let level := computeLevel value
    let s1 : AppState :=
      { s with engagementValue := value, engagementLevel := level }
    let s2 := addLog s1 ("學生專注度: " ++ levelName level) .engagement now
    { s2 with lastEngagementLogTime := some now,
              needsEngagementReminder := false }

/-- JS `String.prototype.trim`: strip leading and trailing whitespace
(executable model of the `.trim()` at line 230). -/
def jsTrim (s : String) : String :=
  ⟨((s.data.dropWhile Char.isWhitespace).reverse.dropWhile
      Char.isWhitespace).reverse⟩

/-- `submitQualitativeNote` (lines 229-233): a no-op when the session is
inactive or when the note trims to nothing (both JS-falsy guards of
line 230); otherwise logs the note and clears the field. -/
def submitQualitativeNote (s : AppState) (now : Nat) : AppState :=
  if s.sessionActive = false ∨ jsTrim s.qualitativeNote = "" then s
  else
    let s1 := addLog s ("質性紀錄: " ++ s.qualitativeNote) .note now
    { s1 with qualitativeNote := "" }

/-- JS `a || b` over a nullable timestamp: `null` and the falsy number `0`
both fall through to `b` (line 149 uses `lastLogTime || sessionStart ||
now`). -/
def jsOrTime (a : Option Nat) (b : Nat) : Nat :=
  match a with
  | some v => if v = 0 then b else v
  | none => b

/-- The body of the reminder-poll interval (lines 143-155) together with
the effect's inactive branch (line 158): while active, compare `now`
against the last engagement log (else session start, else `now`) and set
the flag when more than five minutes have passed; while inactive the flag
is forced to false (and the poll does not run).  JS computes
`now - referenceTime` over possibly negative numbers; with `Nat`
truncation a negative difference becomes 0, which compares with the
threshold identically. -/
def reminderPoll (s : AppState) (now : Nat) : AppState :=
  if s.sessionActive then
    let referenceTime :=
      jsOrTime s.lastEngagementLogTime (jsOrTime s.sessionStartTime now)
    { s with needsEngagementReminder :=
        decide (now - referenceTime > 5 * 60 * 1000) }
  else { s with needsEngagementReminder := false }

/-- The clock effect (lines 119-124): refresh `currentTime`. -/
def clockTick (s : AppState) (now : Nat) : AppState :=
  { s with currentTime := now }

/-- One user-visible or timer-driven operation on the component state. -/
inductive Op where
  | toggleSession (now : Nat)
  | toggleTeachingMode (i : Nat) (now : Nat)
  | recordAction (i : Nat) (now : Nat)
  | onEngagementChange (value : Nat) (now : Nat)
  | submitQualitativeNote (now : Nat)
  | modeTick
  | reminderPoll (now : Nat)
  | clockTick (now : Nat)
deriving DecidableEq, Repr

/-- Dispatch one operation. -/
def opStep (s : AppState) : Op → AppState
  | .toggleSession now => toggleSession s now
  | .toggleTeachingMode i now => toggleTeachingMode s i now
  | .recordAction i now => recordAction s i now
  | .onEngagementChange v now => onEngagementChange s v now
  | .submitQualitativeNote now => submitQualitativeNote s now
  | .modeTick => modeTick s
  | .reminderPoll now => reminderPoll s now
  | .clockTick now => clockTick s now

/-- Run a sequence of operations left to right. -/
def runOps (s : AppState) : List Op → AppState
  | [] => s
  | op :: rest => runOps (opStep s op) rest

/-! ### Frame lemmas for the session invariant -/

/-- Every operation other than `toggleSession` leaves both
`sessionActive` and `sessionStartTime` unchanged. -/
theorem opStep_preserves_session (s : AppState) (op : Op)
    (hop : ∀ n, op ≠ Op.toggleSession n) :
    (opStep s op).sessionActive = s.sessionActive ∧
    (opStep s op).sessionStartTime = s.sessionStartTime := by
  cases op with
  | toggleSession now => exact absurd rfl (hop now)
  | toggleTeachingMode i now =>
    by_cases ha : s.sessionActive = false <;>
      cases h : s.teachingModes[i]? <;>
        simp [opStep, toggleTeachingMode, List.get?_eq_getElem?, ha, h, addLog]
  | recordAction i now =>
    by_cases ha : s.sessionActive = false <;>
      cases h : s.teachingActions[i]? <;>
        simp [opStep, recordAction, List.get?_eq_getElem?, ha, h, addLog]
  | onEngagementChange v now =>
    by_cases ha : s.sessionActive = false <;>
      simp [opStep, onEngagementChange, ha, addLog]
  | submitQualitativeNote now =>
    by_cases ha : s.sessionActive = false ∨ jsTrim s.qualitativeNote = "" <;>
      simp [opStep, submitQualitativeNote, ha, addLog]
  | modeTick =>
    by_cases ha : s.sessionActive <;> simp [opStep, modeTick, ha]
  | reminderPoll now =>
    by_cases ha : s.sessionActive <;> simp [opStep, reminderPoll, ha]
  | clockTick now => simp [opStep, clockTick]

/-- One step preserves the implication from an active session to a
non-null start time. -/
theorem opStep_invariant (s : AppState) (op : Op)
    (hs : s.sessionActive = true → s.sessionStartTime.isSome = true) :
    (opStep s op).sessionActive = true →
    (opStep s op).sessionStartTime.isSome = true := by
  by_cases hts : ∃ n, op = Op.toggleSession n
  · obtain ⟨n, rfl⟩ := hts
    by_cases hb : s.sessionActive = true
    · intro hcontra
      rw [opStep, toggleSession, if_pos hb] at hcontra
      simp [addLog] at hcontra
    · intro _
      rw [opStep, toggleSession, if_neg hb]
      rfl
  · have hp := opStep_preserves_session s op (fun n h => hts ⟨n, h⟩)
    intro ha
    rw [hp.2]
    apply hs
    rw [hp.1] at ha
    exact ha

/-! ### Claim theorems for the session state machine -/

/-- C5 counterexample: stopping a session leaves `sessionStartTime`
non-null while `sessionActive` is false, so the biconditional claimed for
all reachable states is false in the state reached by starting at t=1000
and stopping at t=2000. -/
theorem stopped_session_keeps_start_time :
    (runOps initState
      [Op.toggleSession 1000, Op.toggleSession 2000]).sessionActive = false ∧
    (runOps initState
      [Op.toggleSession 1000, Op.toggleSession 2000]).sessionStartTime
        = some 1000 := by
  decide

/-- C5 amended: in every state reachable from the initial state,
`sessionActive = true` implies `sessionStartTime` is non-null; the
converse direction fails after a stop, because stopping clears only the
active flag and leaves the last start's timestamp in place. -/
theorem active_session_has_start_time (ops : List Op)
    (hactive : (runOps initState ops).sessionActive = true) :
    (runOps initState ops).sessionStartTime.isSome = true := by
  have key : ∀ (l : List Op) (s : AppState),
      (s.sessionActive = true → s.sessionStartTime.isSome = true) →
      (runOps s l).sessionActive = true →
      (runOps s l).sessionStartTime.isSome = true := by
    intro l
    induction l with
    | nil => exact fun s hs => hs
    | cons op rest ih =>
      intro s hs
      rw [runOps]
      exact ih (opStep s op) (opStep_invariant s op hs)
  exact key ops initState (fun h => absurd h (by decide)) hactive

/-- C5 witness: after the single operation of starting at t=7, the session
is active and the amended claim yields a non-null start time. -/
theorem active_session_has_start_time_witness :
    (runOps initState [Op.toggleSession 7]).sessionActive = true ∧
    (runOps initState [Op.toggleSession 7]).sessionStartTime.isSome = true :=
  ⟨by decide, active_session_has_start_time [Op.toggleSession 7] (by decide)⟩

/-- C4 counterexample: starting a session does not reset
`engagementLevel`.  Start at t=1000, move the slider to 80 (level becomes
high), stop at t=3000, start again at t=4000: the freshly started session
has `engagementValue = 50` but `engagementLevel` is still high, not
medium as the claim requires. -/
theorem session_start_keeps_stale_level :
    (runOps initState [Op.toggleSession 1000, Op.onEngagementChange 80 2000,
        Op.toggleSession 3000, Op.toggleSession 4000]).sessionActive = true ∧
    (runOps initState [Op.toggleSession 1000, Op.onEngagementChange 80 2000,
        Op.toggleSession 3000, Op.toggleSession 4000]).engagementValue = 50 ∧
    (runOps initState [Op.toggleSession 1000, Op.onEngagementChange 80 2000,
        Op.toggleSession 3000, Op.toggleSession 4000]).engagementLevel
      = EngLevel.high ∧
    (runOps initState [Op.toggleSession 1000, Op.onEngagementChange 80 2000,
        Op.toggleSession 3000, Op.toggleSession 4000]).engagementLevel
      ≠ EngLevel.medium := by
  decide

/-- C4 amended: starting a session (toggleSession while inactive) resets
the engagement tracker to `value = 50`, `lastUpdateTime = null`,
`reminderDue = false`, while the derived `level` is not reset and keeps
whatever value it had before the start. -/
theorem session_start_resets_engagement (s : AppState) (now : Nat)
    (hinactive : s.sessionActive = false) :
    (toggleSession s now).engagementValue = 50 ∧
    (toggleSession s now).lastEngagementLogTime = none ∧
    (toggleSession s now).needsEngagementReminder = false ∧
    (toggleSession s now).engagementLevel = s.engagementLevel := by
  rw [toggleSession, if_neg (by simp [hinactive])]
  exact ⟨rfl, rfl, rfl, rfl⟩

/-- C4 witness: the amended reset behaviour at the initial state, starting
at t=5. -/
theorem session_start_resets_engagement_witness :
    initState.sessionActive = false ∧
    (toggleSession initState 5).engagementValue = 50 ∧
    (toggleSession initState 5).lastEngagementLogTime = none ∧
    (toggleSession initState 5).needsEngagementReminder = false ∧
    (toggleSession initState 5).engagementLevel = initState.engagementLevel :=
  ⟨rfl, session_start_resets_engagement initState 5 rfl⟩

/-- The operations that the spec's silent-failure policy covers:
mode toggles, action counts, engagement updates and note submission. -/
def isGuardedSessionOp : Op → Bool
  | .toggleTeachingMode _ _ => true
  | .recordAction _ _ => true
  | .onEngagementChange _ _ => true
  | .submitQualitativeNote _ => true
  | _ => false

/-- C7: while the session is inactive, any sequence of mode toggles,
action records, engagement changes and note submissions leaves the whole
component state (timers, counters, engagement state, note, log) exactly
unchanged: each call is a silent no-op. -/
theorem inactive_session_ops_noop (s : AppState) (ops : List Op)
    (hinactive : s.sessionActive = false)
    (hops : ∀ op ∈ ops, isGuardedSessionOp op = true) :
    runOps s ops = s := by
  induction ops with
  | nil => rfl
  | cons op rest ih =>
    have hop : isGuardedSessionOp op = true := hops op (List.mem_cons_self op rest)
    have hstep : opStep s op = s := by
      cases op with
      | toggleTeachingMode i now => simp [opStep, toggleTeachingMode, hinactive]
      | recordAction i now => simp [opStep, recordAction, hinactive]
      | onEngagementChange v now => simp [opStep, onEngagementChange, hinactive]
      | submitQualitativeNote now =>
        simp [opStep, submitQualitativeNote, hinactive]
      | toggleSession now => simp [isGuardedSessionOp] at hop
      | modeTick => simp [isGuardedSessionOp] at hop
      | reminderPoll now => simp [isGuardedSessionOp] at hop
      | clockTick now => simp [isGuardedSessionOp] at hop
    rw [runOps, hstep]
    exact ih (fun o hmem => hops o (List.mem_cons_of_mem _ hmem))

/-- C7 witness: a concrete sequence of all four guarded operations on the
inactive initial state changes nothing. -/
theorem inactive_session_ops_noop_witness :
    initState.sessionActive = false ∧
    runOps initState
      [Op.toggleTeachingMode 0 5, Op.recordAction 1 6,
       Op.onEngagementChange 80 7, Op.submitQualitativeNote 8] = initState :=
  ⟨rfl, inactive_session_ops_noop initState _ rfl (by decide)⟩

/-- C10: with the session active but the note empty or whitespace-only,
`submitQualitativeNote` is a complete no-op: the state (including the log
and the note field itself) is unchanged, so the inactive-session guard is
not the only silent-failure condition of this operation. -/
theorem blank_note_submit_is_noop (s : AppState) (now : Nat)
    (hactive : s.sessionActive = true)
    (hblank : jsTrim s.qualitativeNote = "") :
    submitQualitativeNote s now = s := by
  rw [submitQualitativeNote, if_pos (Or.inr hblank)]

/-- C10 witness: an active session whose note is three spaces; submitting
at t=9 changes nothing. -/
theorem blank_note_submit_is_noop_witness :
    ({ runOps initState [Op.toggleSession 1000] with
        qualitativeNote := "   " } : AppState).sessionActive = true ∧
    jsTrim "   " = "" ∧
    submitQualitativeNote
      { runOps initState [Op.toggleSession 1000] with
        qualitativeNote := "   " } 9
      = { runOps initState [Op.toggleSession 1000] with
          qualitativeNote := "   " } :=
  ⟨by decide, by decide,
    blank_note_submit_is_noop _ 9 (by decide) (by decide)⟩

/-! ### The engagement reminder (C6) -/

/-- While the session is active, one reminder poll stores exactly the
over-threshold comparison against the JS-coalesced reference time. -/
theorem reminderPoll_active_flag (s : AppState) (now : Nat)
    (hactive : s.sessionActive = true) :
    (reminderPoll s now).needsEngagementReminder
      = decide (now - jsOrTime s.lastEngagementLogTime
          (jsOrTime s.sessionStartTime now) > 5 * 60 * 1000) := by
  rw [reminderPoll, if_pos hactive]

/-- C6: while active, a reminder poll sets the flag exactly when more than
five minutes have passed since the reference time (last engagement update
if set, else session start, else now — stated for nonzero stored
timestamps, where JS falsy-or agrees with null-coalescing);
`onEngagementChange` clears the flag immediately; while inactive the flag
is forced to false; and concretely, starting at T0 with no update, a poll
at T0+299 s leaves the flag false and a poll at T0+301 s sets it. -/
theorem engagement_reminder_semantics :
    (∀ (s : AppState) (now : Nat), s.sessionActive = true →
      (∀ t, s.lastEngagementLogTime = some t → 0 < t) →
      (∀ t, s.sessionStartTime = some t → 0 < t) →
      ((reminderPoll s now).needsEngagementReminder = true ↔
        now - s.lastEngagementLogTime.getD (s.sessionStartTime.getD now)
          > 5 * 60 * 1000)) ∧
    (∀ (s : AppState) (v now : Nat), s.sessionActive = true →
      (onEngagementChange s v now).needsEngagementReminder = false) ∧
    (∀ (s : AppState) (now : Nat), s.sessionActive = false →
      (reminderPoll s now).needsEngagementReminder = false) ∧
    (∀ t0 : Nat, 0 < t0 →
      (reminderPoll (runOps initState [Op.toggleSession t0])
        (t0 + 299 * 1000)).needsEngagementReminder = false ∧
      (reminderPoll (runOps initState [Op.toggleSession t0])
        (t0 + 301 * 1000)).needsEngagementReminder = true) := by
  refine ⟨?_, ?_, ?_, ?_⟩
  · intro s now hactive hl hs
    rw [reminderPoll_active_flag s now hactive, decide_eq_true_eq]
    have heq : jsOrTime s.lastEngagementLogTime (jsOrTime s.sessionStartTime now)
        = s.lastEngagementLogTime.getD (s.sessionStartTime.getD now) := by
      cases hl2 : s.lastEngagementLogTime with
      | some v =>
        have hv : ¬ (v = 0) := by have := hl v hl2; omega
        simp [jsOrTime, hv]
      | none =>
        cases hs2 : s.sessionStartTime with
        | some w =>
          have hw : ¬ (w = 0) := by have := hs w hs2; omega
          simp [jsOrTime, hw]
        | none => simp [jsOrTime]
    rw [heq]
  · intro s v now hactive
    rw [onEngagementChange, if_neg (by simp [hactive])]
  · intro s now hinactive
    rw [reminderPoll, if_neg (by simp [hinactive])]
  · intro t0 ht0
    have hne : ¬ (t0 = 0) := by omega
    have hstate : runOps initState [Op.toggleSession t0]
        = toggleSession initState t0 := rfl
    have hact : (toggleSession initState t0).sessionActive = true := rfl
    have hlast : (toggleSession initState t0).lastEngagementLogTime = none := rfl
    have hstart : (toggleSession initState t0).sessionStartTime = some t0 := rfl
    constructor
    · rw [hstate, reminderPoll_active_flag _ _ hact, hlast, hstart]
      simp only [jsOrTime, hne, if_false]
      have harith : t0 + 299 * 1000 - t0 = 299 * 1000 := by omega
      rw [harith]
      rfl
    · rw [hstate, reminderPoll_active_flag _ _ hact, hlast, hstart]
      simp only [jsOrTime, hne, if_false]
      have harith : t0 + 301 * 1000 - t0 = 301 * 1000 := by omega
      rw [harith]
      rfl

/-- C6 witness: the four parts at concrete inputs — a poll 302 s after a
start at t=1000 with no update raises the flag (via the general
over-threshold rule), an engagement change clears it, a poll on the
inactive initial state keeps it false, and the concrete T0 pair at
T0=1000. -/
theorem engagement_reminder_semantics_witness :
    ((reminderPoll (runOps initState [Op.toggleSession 1000])
        303000).needsEngagementReminder = true) ∧
    ((onEngagementChange (runOps initState [Op.toggleSession 1000])
        80 2000).needsEngagementReminder = false) ∧
    ((reminderPoll initState 5).needsEngagementReminder = false) ∧
    ((reminderPoll (runOps initState [Op.toggleSession 1000])
        (1000 + 299 * 1000)).needsEngagementReminder = false) := by
  refine ⟨?_, ?_, ?_, ?_⟩
  · exact (engagement_reminder_semantics.1
      (runOps initState [Op.toggleSession 1000]) 303000 (by decide)
      (by intro t ht; simp [runOps, opStep, toggleSession, initState, addLog] at ht)
      (by
        intro t ht
        have h2 : some 1000 = some t := ht
        injection h2 with h3
        omega)).mpr (by decide)
  · exact engagement_reminder_semantics.2.1
      (runOps initState [Op.toggleSession 1000]) 80 2000 (by decide)
  · exact engagement_reminder_semantics.2.2.1 initState 5 rfl
  · exact (engagement_reminder_semantics.2.2.2 1000 (by decide)).1

/-! ### Concurrent mode timers (C3) -/

/-- The elapsed seconds of the mode timer at index `j` (0 when out of
range). -/
def modeElapsed (s : AppState) (j : Nat) : Nat :=
  (s.teachingModes[j]?.map TeachingMode.elapsedTime).getD 0

/-- The active flag of the mode timer at index `j` (false when out of
range). -/
def modeActive (s : AppState) (j : Nat) : Bool :=
  (s.teachingModes[j]?.map TeachingMode.active).getD false

/-- The operations available during an active session that involve the
mode timers: accumulation ticks and toggles. -/
def isTickOrToggle : Op → Bool
  | .modeTick => true
  | .toggleTeachingMode _ _ => true
  | _ => false

/-- The number of ticks of the sequence at which the timer at index `j`
was active at the moment the tick fired. -/
def activeTickCount (s : AppState) (j : Nat) : List Op → Nat
  | [] => 0
  | op :: rest =>
    (match op with
      | .modeTick => if modeActive s j then 1 else 0
      | _ => 0) + activeTickCount (opStep s op) j rest

/-- A tick during an active session adds 1 to exactly the timers whose
flag is set. -/
theorem modeTick_elapsed (s : AppState) (j : Nat)
    (hactive : s.sessionActive = true) :
    modeElapsed (modeTick s) j
      = modeElapsed s j + (if modeActive s j then 1 else 0) := by
  rw [modeTick, if_pos hactive]
  unfold modeElapsed modeActive
  show ((s.teachingModes.map _)[j]?.map _).getD 0 = _
  rw [List.getElem?_map]
  cases hm : s.teachingModes[j]? with
  | none => rfl
  | some m =>
    cases hma : m.active <;> simp [hma]

/-- A tick leaves the session flag alone. -/
theorem modeTick_active (s : AppState) :
    (modeTick s).sessionActive = s.sessionActive := by
  by_cases h : s.sessionActive <;> simp [modeTick, h]

/-- Toggling any mode never changes any timer's elapsed seconds. -/
theorem toggleMode_elapsed (s : AppState) (i j : Nat) (now : Nat) :
    modeElapsed (toggleTeachingMode s i now) j = modeElapsed s j := by
  rw [toggleTeachingMode]
  by_cases ha : s.sessionActive = false
  · rw [if_pos ha]
  · rw [if_neg ha]
    cases hm : s.teachingModes.get? i with
    | none => rfl
    | some m =>
      unfold modeElapsed
      show ((s.teachingModes.set i _)[j]?.map _).getD 0 = _
      rw [List.getElem?_set]
      by_cases hij : i = j
      · subst hij
        rw [List.get?_eq_getElem?] at hm
        have hlen : i < s.teachingModes.length := by
          rcases List.getElem?_eq_some.mp hm with ⟨hl, _⟩
          exact hl
        simp [hlen, hm]
      · simp [hij]

/-- Toggling any mode never changes any other timer's active flag, and
flips the addressed one; only the preservation of the session flag is
needed below. -/
theorem toggleMode_active (s : AppState) (i now : Nat) :
    (toggleTeachingMode s i now).sessionActive = s.sessionActive := by
  have hp := opStep_preserves_session s (.toggleTeachingMode i now)
    (fun n h => Op.noConfusion h)
  exact hp.1

/-- Accumulation lemma: over any sequence of ticks and toggles run during
an active session, each timer gains exactly the number of ticks at which
its flag was set. -/
theorem mode_accumulation (ops : List Op) :
    ∀ (s : AppState) (j : Nat), s.sessionActive = true →
    (∀ op ∈ ops, isTickOrToggle op = true) →
    modeElapsed (runOps s ops) j = modeElapsed s j + activeTickCount s j ops := by
  induction ops with
  | nil =>
    intro s j _ _
    simp [runOps, activeTickCount]
  | cons op rest ih =>
    intro s j hactive hops
    have hop : isTickOrToggle op = true := hops op (List.mem_cons_self op rest)
    have hrest : ∀ o ∈ rest, isTickOrToggle o = true :=
      fun o hm => hops o (List.mem_cons_of_mem _ hm)
    cases op with
    | modeTick =>
      show modeElapsed (runOps (modeTick s) rest) j
        = modeElapsed s j
          + ((if modeActive s j then 1 else 0) + activeTickCount (modeTick s) j rest)
      rw [ih (modeTick s) j (by rw [modeTick_active]; exact hactive) hrest]
      rw [modeTick_elapsed s j hactive]
      omega
    | toggleTeachingMode i now =>
      show modeElapsed (runOps (toggleTeachingMode s i now) rest) j
        = modeElapsed s j
          + (0 + activeTickCount (toggleTeachingMode s i now) j rest)
      rw [ih (toggleTeachingMode s i now) j
        (by rw [toggleMode_active]; exact hactive) hrest]
      rw [toggleMode_elapsed s i j now]
      omega
    | toggleSession now => simp [isTickOrToggle] at hop
    | recordAction i now => simp [isTickOrToggle] at hop
    | onEngagementChange v now => simp [isTickOrToggle] at hop
    | submitQualitativeNote now => simp [isTickOrToggle] at hop
    | reminderPoll now => simp [isTickOrToggle] at hop
    | clockTick now => simp [isTickOrToggle] at hop

/-- C3: after a session start (which zeroes every timer), for every
sequence of accumulation ticks and mode toggles and every timer index, the
timer's elapsed seconds equal exactly the number of ticks at which that
timer's flag was true — however many other timers were simultaneously
active. -/
theorem mode_timer_counts_active_ticks (s0 : AppState) (t : Nat)
    (ops : List Op) (j : Nat)
    (hinactive : s0.sessionActive = false)
    (hops : ∀ op ∈ ops, isTickOrToggle op = true) :
    modeElapsed (runOps (toggleSession s0 t) ops) j
      = activeTickCount (toggleSession s0 t) j ops := by
  have hstart : (toggleSession s0 t).sessionActive = true := by
    rw [toggleSession, if_neg (by simp [hinactive])]
    rfl
  have hzero : modeElapsed (toggleSession s0 t) j = 0 := by
    rw [toggleSession, if_neg (by simp [hinactive])]
    unfold modeElapsed
    show ((s0.teachingModes.map _)[j]?.map _).getD 0 = 0
    rw [List.getElem?_map]
    cases s0.teachingModes[j]? <;> rfl
  rw [mode_accumulation ops (toggleSession s0 t) j hstart hops, hzero]
  omega

/-- C3 witness: start at t=1000, activate timer 0, tick twice, also
activate timer 1, tick once more: timer 0 accrued all three ticks. -/
theorem mode_timer_counts_active_ticks_witness :
    initState.sessionActive = false ∧
    modeElapsed (runOps (toggleSession initState 1000)
      [Op.toggleTeachingMode 0 1001, Op.modeTick, Op.modeTick,
       Op.toggleTeachingMode 1 1003, Op.modeTick]) 0
      = activeTickCount (toggleSession initState 1000) 0
        [Op.toggleTeachingMode 0 1001, Op.modeTick, Op.modeTick,
         Op.toggleTeachingMode 1 1003, Op.modeTick] :=
  ⟨rfl, mode_timer_counts_active_ticks initState 1000 _ 0 rfl (by decide)⟩

end Chronos
